import Mathlib

/-!
Verification of the story-video generation pipeline (`src/main.py`).

The pipeline turns a user theme into a narrated slideshow video through
five sequential stages: prompt enhancement, style extraction, story
segmentation, asset generation (images + narration), and video
compilation.  Network calls (chat completion, image generation, speech
synthesis, object storage) are modelled by oracles `String → Option _`;
`none` stands for any transport or HTTP failure (which the source
catches and turns into a fallback value).  Machine floats from the
source's timing arithmetic are modelled by rationals.
-/

set_option autoImplicit false

/-! ## Python string primitives -/

/-- Python whitespace characters recognised by `str.strip()`. -/
def isPySpace (c : Char) : Bool :=
  c = ' ' || c = '\t' || c = '\n' || c = '\r' || c = '\x0b' || c = '\x0c'

/-- Drop leading Python-whitespace characters from a character list. -/
def dropWs : List Char → List Char
  | [] => []
  | c :: cs => if isPySpace c then dropWs cs else c :: cs

/-- Python `str.strip()`: remove leading and trailing whitespace. -/
def pyStrip (s : String) : String :=
  String.mk (dropWs ((dropWs s.data.reverse).reverse))

/-- Helper for `pySplitNewline`: accumulates the current line in reverse. -/
def pySplitAux : List Char → List Char → List String
  | [], acc => [String.mk acc.reverse]
  | c :: cs, acc =>
    if c = '\n' then String.mk acc.reverse :: pySplitAux cs []
    else pySplitAux cs (c :: acc)

/-- Python `str.split("\n")`.  Always returns at least one element
(`"".split("\n") == [""]`). -/
def pySplitNewline (s : String) : List String :=
  pySplitAux s.data []

/-- Python `"\n".join(lines)`. -/
def joinNewline : List String → String
  | [] => ""
  | [s] => s
  | s :: rest => s ++ "\n" ++ joinNewline rest

/-! ## Subtitle construction (`create_subtitles`, main.py lines 193-210) -/

/-- The cue-building loop of `create_subtitles`: blank lines are skipped
without advancing `start_time`; non-blank lines get the window
`(start, start + per)` with their stripped text. -/
def cuesLoop (per : ℚ) : List String → ℚ → List ((ℚ × ℚ) × String)
  | [], _ => []
  | l :: ls, start =>
    if pyStrip l = "" then cuesLoop per ls start
    else ((start, start + per), pyStrip l) :: cuesLoop per ls (start + per)

/-- `create_subtitles(text, duration)`: split on newlines, divide the
duration by the total line count, then run the cue loop from time 0.
The `if not lines` error branch returns `[]`. -/
def create_subtitles (text : String) (duration : ℚ) : List ((ℚ × ℚ) × String) :=
  let lines := pySplitNewline text
  if lines.isEmpty then []
  else cuesLoop (duration / (lines.length : ℚ)) lines 0

/-- The condition of the `st.error("Subtitle text cannot be empty.")`
branch of `create_subtitles` (`if not lines`). -/
def subtitleEmptyError (text : String) : Bool :=
  (pySplitNewline text).isEmpty

/-- The time windows of a cue list. -/
def windows (cues : List ((ℚ × ℚ) × String)) : List (ℚ × ℚ) :=
  cues.map Prod.fst

/-- Consecutive windows are contiguous: each ends where the next starts. -/
def contiguousB : List (ℚ × ℚ) → Bool
  | a :: b :: rest => (a.2 == b.1) && contiguousB (b :: rest)
  | _ => true

/-- End time of the last cue, if any. -/
def finalEnd (cues : List ((ℚ × ℚ) × String)) : Option ℚ :=
  ((windows cues).getLast?).map (fun w => w.2)

/-- Number of non-blank lines (the lines that receive a cue). -/
def nonBlankCount (lines : List String) : ℕ :=
  lines.countP (fun l => !(pyStrip l == ""))

/-- `k` consecutive windows of width `p` starting at `s`. -/
def slots (s p : ℚ) : ℕ → List (ℚ × ℚ)
  | 0 => []
  | k + 1 => (s, s + p) :: slots (s + p) p k

/-! ## Video compilation (`compile_video`, main.py lines 212-233) -/

/-- `total_duration = 60  # Limit video to 60 seconds`. -/
def total_duration : ℚ := 60

/-- `image_duration = total_duration / len(images) if images else 0`. -/
def image_duration (images : List String) : ℚ :=
  if images.isEmpty then 0 else total_duration / (images.length : ℚ)

/-- The observable result of `compile_video`: each image clip's assigned
duration, the duration forced onto the composite video, the duration
forced onto the narration track (`.set_duration(total_duration)`), the
overlaid cues, and the fixed output name and codecs. -/
structure CompiledVideo where
  clipDurations : List ℚ
  videoDuration : ℚ
  voiceDuration : ℚ
  cues : List ((ℚ × ℚ) × String)
  fontUsed : String
  outputFile : String
  videoCodec : String
  soundCodec : String
  deriving Repr, DecidableEq

/-- `compile_video(images, voiceover, subtitles, font_style)`.
`voiceLen` is the narration file's intrinsic length, which the source
never measures: the audio clip is created from the file and then forced
to `total_duration`. -/
def compile_video (images : List String) (voiceLen : ℚ)
    (subtitles : List ((ℚ × ℚ) × String)) (font_style : String) : CompiledVideo :=
  let audioAssigned := total_duration
  let _intrinsic := voiceLen
  { clipDurations := images.map (fun _ => image_duration images)
    videoDuration := total_duration
    voiceDuration := audioAssigned
    cues := subtitles
    fontUsed := font_style
    outputFile := "output_video.mp4"
    videoCodec := "libx264"
    soundCodec := "aac" }

/-! ## Network stages and the pipeline driver (main.py lines 52-190, 236-305)

Each outward call is mediated by an oracle; `none` models any transport
error, HTTP error status, or malformed response body (the source
collapses all of these into the same `except` fallback). -/

/-- Environment: responses of the chat, image, speech, and storage
endpoints, plus the intrinsic length of the synthesized narration. -/
structure Oracles where
  chat : String → Option String
  image : String → Option String
  tts : String → Option String
  s3put : String → Option String
  s3del : String → Bool
  voiceLen : ℚ

/-- Observable actions of one run. -/
inductive Event where
  | chatCall (msg : String)
  | imageCall (prompt : String)
  | ttsCall (text : String)
  | s3Upload (key : String)
  | s3Delete (key : String)
  | errorMsg (msg : String)
  | videoProduced (file : String)
  deriving Repr, DecidableEq

/-- The user message of the enhance stage. -/
def enhanceMsg (prompt : String) : String :=
  "Enhance the following prompt for a story video: " ++ prompt

/-- The user message of the style stage. -/
def styleMsg (enhanced : String) : String :=
  "Generate a consistent style and setting description for images based on the following enhanced prompt: "
    ++ enhanced

/-- The user message of the segmenter stage. -/
def segmentMsg (enhanced : String) : String :=
  "Create a short story with a maximum of 5 segments from the following prompt: " ++ enhanced

/-- `enhance_prompt(prompt)`: one chat call; on failure falls back to the
original prompt. -/
def enhance_prompt (o : Oracles) (prompt : String) : String × List Event :=
  match o.chat (enhanceMsg prompt) with
  | some t => (t, [.chatCall (enhanceMsg prompt)])
  | none => (prompt, [.chatCall (enhanceMsg prompt), .errorMsg "Error enhancing prompt"])

/-- `generate_style_prompt(enhanced_prompt)`: one chat call; on failure
falls back to the empty style. -/
def generate_style_prompt (o : Oracles) (enhanced : String) : String × List Event :=
  match o.chat (styleMsg enhanced) with
  | some t => (t, [.chatCall (styleMsg enhanced)])
  | none => ("", [.chatCall (styleMsg enhanced), .errorMsg "Error generating style prompt"])

/-- `generate_story_segments(enhanced_prompt)`: one chat call; splits the
response on newlines and keeps the first 5 lines; on failure returns `[]`. -/
def generate_story_segments (o : Oracles) (enhanced : String) : List String × List Event :=
  match o.chat (segmentMsg enhanced) with
  | some story => ((pySplitNewline story).take 5, [.chatCall (segmentMsg enhanced)])
  | none => ([], [.chatCall (segmentMsg enhanced), .errorMsg "Error generating story"])

/-- The fixed negative instruction appended to every image prompt. -/
def negative_prompt : String := "Make sure there is no text in the image."

/-- `create_image_prompt(segment, style_prompt)`:
`f"{style_prompt} {segment.strip()} {negative_prompt}"`. -/
def create_image_prompt (segment style_prompt : String) : String :=
  style_prompt ++ " " ++ pyStrip segment ++ " " ++ negative_prompt

/-- `generate_image_from_prompt(prompt)`: refuses blank prompts without a
network call; otherwise one image call, `none` on failure. -/
def generate_image_from_prompt (o : Oracles) (prompt : String) :
    Option String × List Event :=
  if pyStrip prompt = "" then (none, [.errorMsg "Prompt cannot be empty."])
  else
    match o.image prompt with
    | some url => (some url, [.imageCall prompt])
    | none => (none, [.imageCall prompt, .errorMsg "HTTP error occurred"])

/-- `generate_voice_overlay(text, voice)`: refuses blank text without a
network call; otherwise one speech call writing `voiceover.mp3`. -/
def generate_voice_overlay (o : Oracles) (text _voice : String) :
    Option String × List Event :=
  if pyStrip text = "" then (none, [.errorMsg "Text for voiceover cannot be empty."])
  else
    match o.tts text with
    | some _ => (some "voiceover.mp3", [.ttsCall text])
    | none => (none, [.ttsCall text, .errorMsg "HTTP error occurred (tts)"])

/-- `upload_to_s3(filename)`: one storage put under `generated_files/`. -/
def upload_to_s3 (o : Oracles) (filename : String) : Option String × List Event :=
  let key := "generated_files/" ++ filename
  match o.s3put key with
  | some _ => (some key, [.s3Upload key])
  | none => (none, [.s3Upload key, .errorMsg ("Failed to upload " ++ filename)])

/-- `delete_from_s3(s3_key)`: one storage delete. -/
def delete_from_s3 (o : Oracles) (key : String) : List Event :=
  if o.s3del key then [.s3Delete key]
  else [.s3Delete key, .errorMsg ("Failed to delete " ++ key)]

/-- The driver's image loop (main.py lines 269-277): one image per
segment, in order, appending on success and breaking on the first
failure (after reporting an error). -/
def imageLoop (o : Oracles) (style : String) : List String → List String × List Event
  | [] => ([], [])
  | seg :: rest =>
    let r := generate_image_from_prompt o (create_image_prompt seg style)
    match r.1 with
    | some url =>
      let t := imageLoop o style rest
      (url :: t.1, r.2 ++ t.2)
    | none =>
      ([], r.2 ++ [.errorMsg "No images were generated. Please check the prompt or try again."])

/-- The prompts of the image calls in an event list. -/
def attemptedPrompts (events : List Event) : List String :=
  events.filterMap (fun e => match e with | .imageCall p => some p | _ => none)

/-- The segment list the driver works with: the segmenter's output with
empty strings removed (`if segment`) and truncated to 5. -/
def pipelineSegs (o : Oracles) (theme : String) : List String :=
  let enhanced := (enhance_prompt o theme).1
  (((generate_story_segments o enhanced).1).filter (fun s => s != "")).take 5

/-- The tail of the driver after the image loop (main.py lines 279-305):
voiceover, subtitles, compilation, upload, display, cleanup — only
entered when at least one image was generated. -/
def pipelineTail (o : Oracles) (segs images : List String) (voice font : String) :
    List Event :=
  if 0 < images.length then
    let vo := generate_voice_overlay o (joinNewline segs) voice
    match vo.1 with
    | none => vo.2
    | some voFile =>
      let subs := create_subtitles (joinNewline segs) 60
      let vid := compile_video images o.voiceLen subs font
      let up := upload_to_s3 o vid.outputFile
      vo.2 ++ [.videoProduced vid.outputFile] ++ up.2
        ++ delete_from_s3 o ("generated_files/" ++ voFile)
        ++ (List.range images.length).flatMap
            (fun idx => delete_from_s3 o ("generated_files/image_" ++ toString idx ++ ".jpg"))
  else []

/-- The module-level driver under `if st.button("Generate Video")`
(main.py lines 242-305), as the sequence of observable events of one
run. -/
def run_pipeline (o : Oracles) (user_prompt voice font : String) : List Event :=
  if pyStrip user_prompt = "" then
    [.errorMsg "Please enter a valid story or theme."]
  else
    let e1 := (enhance_prompt o user_prompt).2
    let enhanced := (enhance_prompt o user_prompt).1
    let st := generate_style_prompt o enhanced
    let sg := generate_story_segments o enhanced
    let segs := ((sg.1).filter (fun s => s != "")).take 5
    let il := imageLoop o st.1 segs
    e1 ++ st.2 ++ sg.2 ++ il.2 ++ pipelineTail o segs il.1 voice font

/-- Event classifiers used to count calls of each kind. -/
def isChatCall : Event → Bool
  | .chatCall _ => true
  | _ => false

def isImageCall : Event → Bool
  | .imageCall _ => true
  | _ => false

def isTtsCall : Event → Bool
  | .ttsCall _ => true
  | _ => false

def isStorageCall : Event → Bool
  | .s3Upload _ => true
  | .s3Delete _ => true
  | _ => false

def isErrorMsg : Event → Bool
  | .errorMsg _ => true
  | _ => false

def isVideoProduced : Event → Bool
  | .videoProduced _ => true
  | _ => false

/-- A network call of any kind (text, image, speech, storage). -/
def isNetworkCall (e : Event) : Bool :=
  isChatCall e || isImageCall e || isTtsCall e || isStorageCall e

/-! ## Helper lemmas -/

lemma pySplitAux_ne_nil : ∀ (l acc : List Char), pySplitAux l acc ≠ []
  | [], _ => by simp [pySplitAux]
  | c :: cs, acc => by
    simp only [pySplitAux]
    split
    · simp
    · exact pySplitAux_ne_nil cs (c :: acc)

lemma pySplitNewline_ne_nil (s : String) : pySplitNewline s ≠ [] :=
  pySplitAux_ne_nil s.data []

lemma mem_dropWs {c : Char} : ∀ {l : List Char}, c ∈ l → isPySpace c = false → c ∈ dropWs l
  | [], h, _ => absurd h (List.not_mem_nil c)
  | d :: ds, h, hc => by
    simp only [dropWs]
    split
    · rcases List.mem_cons.mp h with rfl | hm
      · simp_all
      · exact mem_dropWs hm hc
    · exact h

lemma pyStrip_ne_empty {s : String} {c : Char} (hm : c ∈ s.data)
    (hc : isPySpace c = false) : pyStrip s ≠ "" := by
  have h1 : c ∈ dropWs s.data.reverse := mem_dropWs (List.mem_reverse.mpr hm) hc
  have h2 : c ∈ dropWs ((dropWs s.data.reverse).reverse) :=
    mem_dropWs (List.mem_reverse.mpr h1) hc
  have h3 : dropWs ((dropWs s.data.reverse).reverse) ≠ [] := List.ne_nil_of_mem h2
  simp only [pyStrip]
  intro h
  exact h3 (by simpa [String.ext_iff] using h)

lemma create_subtitles_eq_cuesLoop (text : String) (duration : ℚ) :
    create_subtitles text duration =
      cuesLoop (duration / ((pySplitNewline text).length : ℚ)) (pySplitNewline text) 0 := by
  simp [create_subtitles, List.isEmpty_iff, pySplitNewline_ne_nil text]

lemma create_image_prompt_not_blank (segment style_prompt : String) :
    pyStrip (create_image_prompt segment style_prompt) ≠ "" := by
  apply pyStrip_ne_empty (c := 'M')
  · simp only [create_image_prompt, String.data_append]
    refine List.mem_append_right _ ?_
    simp only [negative_prompt]
    decide
  · decide

lemma windows_cuesLoop (p : ℚ) : ∀ (lines : List String) (s : ℚ),
    windows (cuesLoop p lines s) = slots s p (nonBlankCount lines)
  | [], s => by simp [cuesLoop, windows, nonBlankCount, slots]
  | l :: ls, s => by
    by_cases h : pyStrip l = ""
    · have hc : nonBlankCount (l :: ls) = nonBlankCount ls := by
        simp [nonBlankCount, List.countP_cons, h]
      simp only [cuesLoop, if_pos h, hc]
      exact windows_cuesLoop p ls s
    · have hc : nonBlankCount (l :: ls) = nonBlankCount ls + 1 := by
        simp [nonBlankCount, List.countP_cons, h]
      simp only [cuesLoop, if_neg h, windows, List.map_cons, hc, slots]
      have := windows_cuesLoop p ls (s + p)
      simp only [windows] at this
      rw [this]

lemma contiguousB_slots (p : ℚ) : ∀ (k : ℕ) (s : ℚ), contiguousB (slots s p k) = true
  | 0, _ => rfl
  | 1, _ => rfl
  | (k + 2), s => by
    show contiguousB ((s, s + p) :: (s + p, s + p + p) :: slots (s + p + p) p k) = true
    simp only [contiguousB, Bool.and_eq_true, beq_iff_eq]
    exact ⟨trivial, contiguousB_slots p (k + 1) (s + p)⟩

lemma mem_slots_fst_ge (p : ℚ) (hp : 0 ≤ p) :
    ∀ (k : ℕ) (s : ℚ) (w : ℚ × ℚ), w ∈ slots s p k → s ≤ w.1
  | 0, _, _, h => absurd h (List.not_mem_nil _)
  | (k + 1), s, w, h => by
    rcases List.mem_cons.mp h with rfl | hm
    · exact le_refl s
    · have := mem_slots_fst_ge p hp k (s + p) w hm
      linarith

lemma pairwise_slots (p : ℚ) (hp : 0 ≤ p) :
    ∀ (k : ℕ) (s : ℚ), (slots s p k).Pairwise (fun a b => a.2 ≤ b.1)
  | 0, _ => List.Pairwise.nil
  | (k + 1), s => by
    refine List.pairwise_cons.mpr ⟨?_, pairwise_slots p hp k (s + p)⟩
    intro w hw
    exact mem_slots_fst_ge p hp k (s + p) w hw

lemma getLast?_slots (p : ℚ) : ∀ (k : ℕ) (s : ℚ), 0 < k →
    ((slots s p k).getLast?).map (fun w => w.2) = some (s + (k : ℚ) * p)
  | 0, _, h => absurd h (lt_irrefl 0)
  | 1, s, _ => by
    show Option.map (fun w => w.2) (some (s, s + p)) = some (s + (1 : ℚ) * p)
    simp
  | (k + 2), s, _ => by
    have h2 : slots s p (k + 2) = (s, s + p) :: slots (s + p) p (k + 1) := rfl
    have h3 : slots (s + p) p (k + 1) = (s + p, s + p + p) :: slots (s + p + p) p k := rfl
    rw [h2, h3, List.getLast?_cons_cons, ← h3]
    rw [getLast?_slots p (k + 1) (s + p) (Nat.succ_pos k)]
    congr 1
    push_cast
    ring
/-- An environment in which every outward call fails. -/
def oAllFail : Oracles :=
  { chat := fun _ => none
    image := fun _ => none
    tts := fun _ => none
    s3put := fun _ => none
    s3del := fun _ => false
    voiceLen := 0 }

/-- An environment in which every outward call succeeds; each chat
response is a fixed five-line story, each image call returns one URL. -/
def oAllOk : Oracles :=
  { chat := fun _ => some "one\ntwo\nthree\nfour\nfive"
    image := fun _ => some "http://img"
    tts := fun _ => some "ok"
    s3put := fun k => some k
    s3del := fun _ => true
    voiceLen := 37 }

/-- An environment in which every chat call succeeds but returns a
single newline, so the segmenter yields only blank lines. -/
def oBlankStory : Oracles :=
  { chat := fun _ => some "\n"
    image := fun _ => some "http://img"
    tts := fun _ => some "ok"
    s3put := fun k => some k
    s3del := fun _ => true
    voiceLen := 37 }

/-! ## Claims -/

/-- C9: for every input string, splitting on newlines yields a non-empty
list, so `create_subtitles` never takes its `"Subtitle text cannot be
empty"` error branch and always returns via the cue-building loop. -/
theorem create_subtitles_empty_branch_unreachable (text : String) (duration : ℚ) :
    subtitleEmptyError text = false ∧
    create_subtitles text duration =
      cuesLoop (duration / ((pySplitNewline text).length : ℚ)) (pySplitNewline text) 0 := by
  have h : pySplitNewline text ≠ [] := pySplitNewline_ne_nil text
  constructor
  · simp [subtitleEmptyError, List.isEmpty_iff, h]
  · exact create_subtitles_eq_cuesLoop text duration

/-- C4: for every oracle environment and theme, the segmenter's output
after the driver's blank filter and re-truncation has length at most 5. -/
theorem pipeline_segments_length_le_five (o : Oracles) (theme : String) :
    (pipelineSegs o theme).length ≤ 5 := by
  simp only [pipelineSegs]
  exact List.length_take_le 5 _

/-- C7: for any non-empty image list, the per-image duration times the
image count equals the fixed 60-second total duration exactly. -/
theorem image_duration_mul_count (images : List String) (h : images ≠ []) :
    image_duration images * (images.length : ℚ) = total_duration ∧ total_duration = 60 := by
  have hlen : (images.length : ℚ) ≠ 0 :=
    Nat.cast_ne_zero.mpr (fun hh => h (List.length_eq_zero.mp hh))
  constructor
  · simp only [image_duration, List.isEmpty_iff, if_neg h]
    field_simp
  · rfl

/-- C7 witness: a concrete one-image list. -/
theorem image_duration_mul_count_witness :
    (["img0"] : List String) ≠ [] ∧
    (image_duration ["img0"] * ((["img0"] : List String).length : ℚ) = total_duration ∧
      total_duration = 60) :=
  ⟨by decide, image_duration_mul_count ["img0"] (by decide)⟩

/-- C8: the video compiler forces both the composed visual sequence and
the attached narration track to exactly 60 seconds, for every image
list, every intrinsic narration length, every cue list and font. -/
theorem compile_video_fixed_duration (images : List String) (voiceLen : ℚ)
    (subs : List ((ℚ × ℚ) × String)) (font : String) :
    (compile_video images voiceLen subs font).videoDuration = 60 ∧
    (compile_video images voiceLen subs font).voiceDuration = 60 :=
  ⟨rfl, rfl⟩

/-- C6: a theme that is empty after trimming stops the run at the
validation check: the only event is the validation error message — zero
network calls of any kind and no video. -/
theorem empty_theme_no_calls (o : Oracles) (theme voice font : String)
    (h : pyStrip theme = "") :
    run_pipeline o theme voice font = [.errorMsg "Please enter a valid story or theme."] ∧
    (run_pipeline o theme voice font).countP isNetworkCall = 0 ∧
    (run_pipeline o theme voice font).countP isVideoProduced = 0 ∧
    (run_pipeline o theme voice font).countP isErrorMsg = 1 := by
  have h1 : run_pipeline o theme voice font =
      [.errorMsg "Please enter a valid story or theme."] := by
    simp [run_pipeline, h]
  refine ⟨h1, ?_, ?_, ?_⟩ <;> rw [h1] <;> rfl

/-- C6 witness: a whitespace-only theme. -/
theorem empty_theme_no_calls_witness :
    pyStrip "   " = "" ∧
    (run_pipeline oAllFail "   " "Alloy" "Arial-Bold" =
        [.errorMsg "Please enter a valid story or theme."] ∧
      (run_pipeline oAllFail "   " "Alloy" "Arial-Bold").countP isNetworkCall = 0 ∧
      (run_pipeline oAllFail "   " "Alloy" "Arial-Bold").countP isVideoProduced = 0 ∧
      (run_pipeline oAllFail "   " "Alloy" "Arial-Bold").countP isErrorMsg = 1) :=
  ⟨by decide, empty_theme_no_calls oAllFail "   " "Alloy" "Arial-Bold" (by decide)⟩

/-- C5: when the chat call of the enhance stage fails, the stage falls
back to the original theme, and the style and segmenter stages are
invoked on exactly that unmodified theme (their chat messages embed the
original theme). -/
theorem enhance_failure_fallback (o : Oracles) (theme voice font : String)
    (hfail : o.chat (enhanceMsg theme) = none) (hne : pyStrip theme ≠ "") :
    (enhance_prompt o theme).1 = theme ∧
    Event.chatCall (styleMsg theme) ∈ run_pipeline o theme voice font ∧
    Event.chatCall (segmentMsg theme) ∈ run_pipeline o theme voice font := by
  have he : (enhance_prompt o theme).1 = theme := by simp [enhance_prompt, hfail]
  refine ⟨he, ?_, ?_⟩
  · have hm : Event.chatCall (styleMsg theme) ∈ (generate_style_prompt o theme).2 := by
      cases hc : o.chat (styleMsg theme) <;> simp [generate_style_prompt, hc]
    simp only [run_pipeline, hne, if_false, he, List.append_assoc, List.mem_append]
    exact Or.inr (Or.inl hm)
  · have hm : Event.chatCall (segmentMsg theme) ∈ (generate_story_segments o theme).2 := by
      cases hc : o.chat (segmentMsg theme) <;> simp [generate_story_segments, hc]
    simp only [run_pipeline, hne, if_false, he, List.append_assoc, List.mem_append]
    exact Or.inr (Or.inr (Or.inl hm))

/-- C5 witness: the all-failing environment with a concrete theme. -/
theorem enhance_failure_fallback_witness :
    oAllFail.chat (enhanceMsg "a theme") = none ∧ pyStrip "a theme" ≠ "" ∧
    ((enhance_prompt oAllFail "a theme").1 = "a theme" ∧
      Event.chatCall (styleMsg "a theme") ∈ run_pipeline oAllFail "a theme" "Alloy" "Courier" ∧
      Event.chatCall (segmentMsg "a theme") ∈ run_pipeline oAllFail "a theme" "Alloy" "Courier") :=
  ⟨rfl, by decide,
    enhance_failure_fallback oAllFail "a theme" "Alloy" "Courier" rfl (by decide)⟩

/-- C1 (amended): for every text whose newline split has at least one
non-blank line and every non-negative total duration, the cue windows
are contiguous and pairwise non-overlapping, and the final cue's end
time equals `nonBlankCount * (duration / lineCount)`; it equals the
total duration exactly when every line is non-blank.  (Blank lines
consume a share of the division but no window, shrinking the final end
below the total duration.) -/
theorem subtitle_cue_windows (text : String) (d : ℚ) (hd : 0 ≤ d)
    (hnb : 0 < nonBlankCount (pySplitNewline text)) :
    contiguousB (windows (create_subtitles text d)) = true ∧
    (windows (create_subtitles text d)).Pairwise (fun a b => a.2 ≤ b.1) ∧
    finalEnd (create_subtitles text d) =
      some ((nonBlankCount (pySplitNewline text) : ℚ) *
        (d / ((pySplitNewline text).length : ℚ))) ∧
    (nonBlankCount (pySplitNewline text) = (pySplitNewline text).length →
      finalEnd (create_subtitles text d) = some d) := by
  have hline : pySplitNewline text ≠ [] := pySplitNewline_ne_nil text
  have hlen : ((pySplitNewline text).length : ℚ) ≠ 0 :=
    Nat.cast_ne_zero.mpr (fun hh => hline (List.length_eq_zero.mp hh))
  have hp : (0 : ℚ) ≤ d / ((pySplitNewline text).length : ℚ) :=
    div_nonneg hd (Nat.cast_nonneg _)
  have hw : windows (create_subtitles text d) =
      slots 0 (d / ((pySplitNewline text).length : ℚ)) (nonBlankCount (pySplitNewline text)) := by
    rw [create_subtitles_eq_cuesLoop]
    exact windows_cuesLoop _ _ 0
  have hfe : finalEnd (create_subtitles text d) =
      some ((nonBlankCount (pySplitNewline text) : ℚ) *
        (d / ((pySplitNewline text).length : ℚ))) := by
    rw [finalEnd, hw, getLast?_slots _ _ 0 hnb]
    rw [zero_add]
  refine ⟨?_, ?_, hfe, ?_⟩
  · rw [hw]
    exact contiguousB_slots _ _ 0
  · rw [hw]
    exact pairwise_slots _ hp _ 0
  · intro heq
    rw [hfe, heq]
    congr 1
    field_simp

/-- C1 witness: the two-line text `"a\nb"` with duration 60; both lines
are non-blank, so the final end equals `2 * (60 / 2) = 60`. -/
theorem subtitle_cue_windows_witness :
    (0 : ℚ) ≤ 60 ∧ 0 < nonBlankCount (pySplitNewline "a\nb") ∧
    (contiguousB (windows (create_subtitles "a\nb" 60)) = true ∧
      (windows (create_subtitles "a\nb" 60)).Pairwise (fun a b => a.2 ≤ b.1) ∧
      finalEnd (create_subtitles "a\nb" 60) =
        some ((nonBlankCount (pySplitNewline "a\nb") : ℚ) *
          (60 / ((pySplitNewline "a\nb").length : ℚ))) ∧
      (nonBlankCount (pySplitNewline "a\nb") = (pySplitNewline "a\nb").length →
        finalEnd (create_subtitles "a\nb" 60) = some 60)) :=
  ⟨by norm_num, by decide, subtitle_cue_windows "a\nb" 60 (by norm_num) (by decide)⟩

/-- C1 counterexample to the claim as stated: the line sequence of
`"a\n\nb"` is non-empty (three lines, one blank), yet the final cue's
end time is 40, not the total duration 60. -/
theorem subtitle_final_end_claim_false :
    pySplitNewline "a\n\nb" ≠ [] ∧
    finalEnd (create_subtitles "a\n\nb" 60) ≠ some 60 := by
  constructor
  · decide
  · have h : finalEnd (create_subtitles "a\n\nb" 60) = some 40 := by
      simp [finalEnd, windows, create_subtitles, pySplitNewline, pySplitAux, cuesLoop,
        pyStrip, dropWs, isPySpace]
      norm_num
    rw [h]
    simp

/-- In the image loop, a generation call on a segment whose oracle
response succeeds contributes exactly one image-call event. -/
lemma generate_image_ok (o : Oracles) (seg style url : String)
    (h : o.image (create_image_prompt seg style) = some url) :
    generate_image_from_prompt o (create_image_prompt seg style) =
      (some url, [.imageCall (create_image_prompt seg style)]) := by
  rw [generate_image_from_prompt, if_neg (create_image_prompt_not_blank seg style), h]

/-- A failing generation call contributes one image-call event and one
error message. -/
lemma generate_image_fail (o : Oracles) (seg style : String)
    (h : o.image (create_image_prompt seg style) = none) :
    generate_image_from_prompt o (create_image_prompt seg style) =
      (none, [.imageCall (create_image_prompt seg style), .errorMsg "HTTP error occurred"]) := by
  rw [generate_image_from_prompt, if_neg (create_image_prompt_not_blank seg style), h]

/-- C2 (amended): if the image oracle succeeds on the prompts of all
segments before index `k` and fails at index `k`, the loop accumulates
exactly `k` images — those of the segments before `k`, in order — and
performs generation attempts exactly for indices `0..k`: the failing
index `k` itself is attempted (that is how the failure is observed), and
no index beyond `k` is ever attempted. -/
theorem image_loop_fail_fast (o : Oracles) (style : String) (segs : List String) (k : ℕ)
    (hk : k < segs.length)
    (hsucc : ∀ i, i < k → (o.image (create_image_prompt (segs.getD i "") style)).isSome)
    (hfail : o.image (create_image_prompt (segs.getD k "") style) = none) :
    (imageLoop o style segs).1.length = k ∧
    (∀ i, i < k → (imageLoop o style segs).1.getD i "" =
      (o.image (create_image_prompt (segs.getD i "") style)).getD "") ∧
    attemptedPrompts (imageLoop o style segs).2 =
      (List.range (k + 1)).map (fun i => create_image_prompt (segs.getD i "") style) := by
  induction segs generalizing k with
  | nil => exact absurd hk (Nat.not_lt_zero k)
  | cons s rest ih =>
    cases k with
    | zero =>
      rw [List.getD_cons_zero] at hfail
      simp only [imageLoop, generate_image_fail o s style hfail]
      refine ⟨rfl, fun i hi => absurd hi (Nat.not_lt_zero i), ?_⟩
      simp [attemptedPrompts, List.range_succ]
    | succ k' =>
      have h0 := hsucc 0 (Nat.succ_pos k')
      rw [List.getD_cons_zero] at h0
      obtain ⟨url, hu⟩ := Option.isSome_iff_exists.mp h0
      have hk' : k' < rest.length := Nat.lt_of_succ_lt_succ hk
      have hsucc' : ∀ i, i < k' →
          (o.image (create_image_prompt (rest.getD i "") style)).isSome := by
        intro i hi
        have := hsucc (i + 1) (Nat.succ_lt_succ hi)
        rwa [List.getD_cons_succ] at this
      have hfail' : o.image (create_image_prompt (rest.getD k' "") style) = none := by
        rw [List.getD_cons_succ] at hfail
        exact hfail
      obtain ⟨ih1, ih2, ih3⟩ := ih k' hk' hsucc' hfail'
      simp only [imageLoop, generate_image_ok o s style url hu]
      refine ⟨?_, ?_, ?_⟩
      · simpa using ih1
      · intro i hi
        cases i with
        | zero => simp [hu]
        | succ j =>
          have hj : j < k' := Nat.lt_of_succ_lt_succ hi
          simpa [List.getD_cons_succ] using ih2 j hj
      · simp only [attemptedPrompts, List.filterMap_append] at ih3 ⊢
        rw [List.range_succ_eq_map, List.map_cons, List.map_map]
        simp only [List.getD_cons_zero]
        have : (List.range (k' + 1)).map
            ((fun i => create_image_prompt ((s :: rest).getD i "") style) ∘ Nat.succ) =
            (List.range (k' + 1)).map (fun i => create_image_prompt (rest.getD i "") style) := by
          refine List.map_congr_left ?_
          intro i _
          simp [List.getD_cons_succ]
        rw [this, ← ih3]
        simp [attemptedPrompts]

/-- C2 witness: failure at index 0 of a one-segment list — zero images,
and exactly the prompt of index 0 attempted. -/
theorem image_loop_fail_fast_witness :
    0 < (["a"] : List String).length ∧
    oAllFail.image (create_image_prompt ((["a"] : List String).getD 0 "") "") = none ∧
    ((imageLoop oAllFail "" ["a"]).1.length = 0 ∧
      (∀ i, i < 0 → (imageLoop oAllFail "" ["a"]).1.getD i "" =
        (oAllFail.image (create_image_prompt ((["a"] : List String).getD i "") "")).getD "") ∧
      attemptedPrompts (imageLoop oAllFail "" ["a"]).2 =
        (List.range (0 + 1)).map (fun i => create_image_prompt ((["a"] : List String).getD i "") "")) :=
  ⟨by decide, rfl,
    image_loop_fail_fast oAllFail "" ["a"] 0 (by decide)
      (fun i hi => absurd hi (Nat.not_lt_zero i)) rfl⟩

/-- C2 counterexample to the claim as stated: when generation fails at
index `k = 0` of `["a"]`, the image list indeed has 0 entries, but an
image-generation attempt at index 0 ≥ k does occur (the failing call
itself), so "never attempted for any segment at index ≥ k" is false. -/
theorem image_loop_attempted_at_failing_index :
    oAllFail.image (create_image_prompt "a" "") = none ∧
    (imageLoop oAllFail "" ["a"]).1.length = 0 ∧
    attemptedPrompts (imageLoop oAllFail "" ["a"]).2 = [create_image_prompt "a" ""] ∧
    attemptedPrompts (imageLoop oAllFail "" ["a"]).2 ≠ [] := by
  have h : imageLoop oAllFail "" ["a"] =
      ([], [.imageCall (create_image_prompt "a" ""), .errorMsg "HTTP error occurred",
        .errorMsg "No images were generated. Please check the prompt or try again."]) := by
    simp only [imageLoop, generate_image_fail oAllFail "a" "" rfl, List.cons_append,
      List.nil_append]
  refine ⟨rfl, ?_, ?_, ?_⟩ <;> rw [h] <;> simp [attemptedPrompts]

/-- The enhance stage emits only chat-call and error-message events. -/
lemma enhance_events_chatlike (o : Oracles) (p : String) :
    ∀ e ∈ (enhance_prompt o p).2, isChatCall e = true ∨ isErrorMsg e = true := by
  intro e he
  cases hc : o.chat (enhanceMsg p) <;> rw [enhance_prompt, hc] at he <;>
    simp at he <;> rcases he with rfl | rfl <;> simp [isChatCall, isErrorMsg]

/-- The style stage emits only chat-call and error-message events. -/
lemma style_events_chatlike (o : Oracles) (p : String) :
    ∀ e ∈ (generate_style_prompt o p).2, isChatCall e = true ∨ isErrorMsg e = true := by
  intro e he
  cases hc : o.chat (styleMsg p) <;> rw [generate_style_prompt, hc] at he <;>
    simp at he <;> rcases he with rfl | rfl <;> simp [isChatCall, isErrorMsg]

/-- The segmenter stage emits only chat-call and error-message events. -/
lemma segments_events_chatlike (o : Oracles) (p : String) :
    ∀ e ∈ (generate_story_segments o p).2, isChatCall e = true ∨ isErrorMsg e = true := by
  intro e he
  cases hc : o.chat (segmentMsg p) <;> rw [generate_story_segments, hc] at he <;>
    simp at he <;> rcases he with rfl | rfl <;> simp [isChatCall, isErrorMsg]

/-- A list of chat-call and error-message events contains no image,
speech, storage, or video-production events. -/
lemma chatlike_no_asset_events (l : List Event)
    (h : ∀ e ∈ l, isChatCall e = true ∨ isErrorMsg e = true) :
    l.countP isImageCall = 0 ∧ l.countP isTtsCall = 0 ∧
    l.countP isStorageCall = 0 ∧ l.countP isVideoProduced = 0 := by
  refine ⟨?_, ?_, ?_, ?_⟩ <;> rw [List.countP_eq_zero] <;> intro e he <;>
    rcases h e he with hc | hc <;> cases e <;>
    simp_all [isChatCall, isErrorMsg, isImageCall, isTtsCall, isStorageCall, isVideoProduced]

/-- With no usable segments, the run's events are exactly those of the
three text stages. -/
lemma run_pipeline_empty_segs (o : Oracles) (theme voice font : String)
    (hne : pyStrip theme ≠ "") (hseg : pipelineSegs o theme = []) :
    run_pipeline o theme voice font =
      (enhance_prompt o theme).2 ++ (generate_style_prompt o (enhance_prompt o theme).1).2
        ++ (generate_story_segments o (enhance_prompt o theme).1).2 := by
  simp only [pipelineSegs] at hseg
  rw [run_pipeline, if_neg hne]
  simp only [hseg, imageLoop, pipelineTail, List.length_nil, lt_irrefl, if_false,
    List.append_nil]

/-- C3 (amended): if the segment list is empty after filtering blanks,
the pipeline performs zero image-generation, speech-synthesis, storage
and video-compilation actions and produces no video; however, no error
message is reported for the empty segment list itself — error events
can only come from the three text-stage calls failing. -/
theorem empty_segments_no_asset_calls (o : Oracles) (theme voice font : String)
    (hne : pyStrip theme ≠ "") (hseg : pipelineSegs o theme = []) :
    (run_pipeline o theme voice font).countP isImageCall = 0 ∧
    (run_pipeline o theme voice font).countP isTtsCall = 0 ∧
    (run_pipeline o theme voice font).countP isStorageCall = 0 ∧
    (run_pipeline o theme voice font).countP isVideoProduced = 0 := by
  rw [run_pipeline_empty_segs o theme voice font hne hseg]
  have hall : ∀ e ∈ (enhance_prompt o theme).2
      ++ (generate_style_prompt o (enhance_prompt o theme).1).2
      ++ (generate_story_segments o (enhance_prompt o theme).1).2,
      isChatCall e = true ∨ isErrorMsg e = true := by
    intro e he
    rcases List.mem_append.mp he with he1 | he2
    · rcases List.mem_append.mp he1 with he11 | he12
      · exact enhance_events_chatlike o theme e he11
      · exact style_events_chatlike o (enhance_prompt o theme).1 e he12
    · exact segments_events_chatlike o (enhance_prompt o theme).1 e he2
  exact chatlike_no_asset_events _ hall

/-- C3 witness: an environment whose chat calls all return a lone
newline, so the segmenter yields only blank lines. -/
theorem empty_segments_no_asset_calls_witness :
    pyStrip "t" ≠ "" ∧ pipelineSegs oBlankStory "t" = [] ∧
    ((run_pipeline oBlankStory "t" "Nova" "Verdana").countP isImageCall = 0 ∧
      (run_pipeline oBlankStory "t" "Nova" "Verdana").countP isTtsCall = 0 ∧
      (run_pipeline oBlankStory "t" "Nova" "Verdana").countP isStorageCall = 0 ∧
      (run_pipeline oBlankStory "t" "Nova" "Verdana").countP isVideoProduced = 0) :=
  ⟨by decide, by decide,
    empty_segments_no_asset_calls oBlankStory "t" "Nova" "Verdana" (by decide) (by decide)⟩

/-- C3 counterexample to the claim as stated: with every chat call
succeeding but yielding only blank lines, the filtered segment list is
empty and the run performs zero asset calls — yet it reports no error
message at all, contradicting "the pipeline reports an error". -/
theorem empty_segments_no_error_reported :
    pyStrip "t" ≠ "" ∧ pipelineSegs oBlankStory "t" = [] ∧
    (run_pipeline oBlankStory "t" "Echo" "Courier").countP isErrorMsg = 0 := by
  refine ⟨by decide, by decide, ?_⟩
  decide

/-- Filtering `if segment` removes exactly the empty-string occurrences:
kept length plus empty-string count is the original length. -/
lemma filter_len_add_empty_count : ∀ segs : List String,
    (segs.filter (fun x => x != "")).length + segs.count "" = segs.length
  | [] => rfl
  | s :: rest => by
    have ih := filter_len_add_empty_count rest
    by_cases h : s = ""
    · subst h
      simp only [List.filter_cons, List.count_cons, List.length_cons,
        bne_self_eq_false, Bool.false_eq_true, if_false, beq_self_eq_true, if_true]
      omega
    · have hb : (s != "") = true := by simpa using h
      have hc : (s == "") = false := by simpa using h
      simp only [List.filter_cons, List.count_cons, List.length_cons, hb, hc,
        Bool.false_eq_true, if_false, if_true]
      omega

/-- When every generation call succeeds, the loop attempts exactly one
image prompt per segment, in order. -/
lemma imageLoop_all_ok (o : Oracles) (style : String) : ∀ segs : List String,
    (∀ seg ∈ segs, (o.image (create_image_prompt seg style)).isSome) →
    attemptedPrompts (imageLoop o style segs).2 =
      segs.map (fun seg => create_image_prompt seg style)
  | [], _ => rfl
  | s :: rest, h => by
    obtain ⟨url, hu⟩ := Option.isSome_iff_exists.mp (h s (List.mem_cons_self s rest))
    have ih := imageLoop_all_ok o style rest (fun seg hseg => h seg (List.mem_cons_of_mem s hseg))
    simp only [imageLoop, generate_image_ok o s style url hu, List.map_cons]
    simp only [attemptedPrompts, List.filterMap_append] at ih ⊢
    rw [ih]
    rfl

/-- Every cue built by the loop carries a non-empty (stripped) text:
blank lines never receive a cue. -/
lemma cuesLoop_text_ne_empty (per : ℚ) : ∀ (lines : List String) (st : ℚ)
    (c : (ℚ × ℚ) × String), c ∈ cuesLoop per lines st → c.2 ≠ ""
  | [], _, _, hc => absurd hc (List.not_mem_nil _)
  | l :: ls, st, c, hc => by
    by_cases h : pyStrip l = ""
    · rw [cuesLoop, if_pos h] at hc
      exact cuesLoop_text_ne_empty per ls st c hc
    · rw [cuesLoop, if_neg h] at hc
      rcases List.mem_cons.mp hc with rfl | hm
      · exact h
      · exact cuesLoop_text_ne_empty per ls (st + per) c hm

/-- C10: the driver's blank filter removes only literally empty
segments: a whitespace-only segment survives it, an image prompt is
constructed for it (when the loop reaches all segments), and it appears
in the narration text — yet the subtitle builder never creates a cue
whose text is the (empty) stripped form of that segment. -/
theorem whitespace_segment_flow (o : Oracles) (style : String) (segs : List String)
    (s : String) (d : ℚ)
    (hmem : s ∈ segs) (hne : s ≠ "") (hws : pyStrip s = "")
    (hok : ∀ seg ∈ segs.filter (fun x => x != ""),
      (o.image (create_image_prompt seg style)).isSome) :
    s ∈ segs.filter (fun x => x != "") ∧
    (segs.filter (fun x => x != "")).length + segs.count "" = segs.length ∧
    create_image_prompt s style ∈
      attemptedPrompts (imageLoop o style (segs.filter (fun x => x != ""))).2 ∧
    ∀ c ∈ create_subtitles (joinNewline (segs.filter (fun x => x != ""))) d,
      c.2 ≠ pyStrip s := by
  have h1 : s ∈ segs.filter (fun x => x != "") :=
    List.mem_filter.mpr ⟨hmem, by simpa using hne⟩
  refine ⟨h1, filter_len_add_empty_count segs, ?_, ?_⟩
  · rw [imageLoop_all_ok o style _ hok]
    exact List.mem_map.mpr ⟨s, h1, rfl⟩
  · intro c hc
    rw [create_subtitles_eq_cuesLoop] at hc
    rw [hws]
    exact cuesLoop_text_ne_empty _ _ _ c hc

/-- C10 witness: the singleton whitespace segment list. -/
theorem whitespace_segment_flow_witness :
    (" " ∈ ([" "] : List String)) ∧ (" " : String) ≠ "" ∧ pyStrip " " = "" ∧
    ((" " ∈ ([" "] : List String).filter (fun x => x != "")) ∧
      (([" "] : List String).filter (fun x => x != "")).length
        + ([" "] : List String).count "" = ([" "] : List String).length ∧
      create_image_prompt " " "" ∈
        attemptedPrompts (imageLoop oAllOk "" (([" "] : List String).filter
          (fun x => x != ""))).2 ∧
      ∀ c ∈ create_subtitles (joinNewline (([" "] : List String).filter
          (fun x => x != ""))) 60, c.2 ≠ pyStrip " ") :=
  ⟨by decide, by decide, by decide,
    whitespace_segment_flow oAllOk "" [" "] " " 60 (by decide) (by decide) (by decide)
      (by decide)⟩
